import Mathlib

/-!
Shallow embedding of the fleet-management repository's query/aggregation
layer (`src/backend/fleet_tools.py`) and its remote tool-invocation
handlers (`src/backend/lambda/weather_lambda.py`,
`src/backend/lambda/flight_lambda.py`), with theorems settling the
frozen behavioural claims about them.

Modelling conventions:
* Python `Decimal` currency values are embedded as `ℚ` (exact decimal
  arithmetic; the 28-significant-digit `Decimal` context is treated as
  exact, which is faithful at currency scale).
* JSON values are the inductive `JVal`; `json.dumps` (default
  separators, `ensure_ascii=True`) is `JVal.render`.  Binary floating
  point never appears: numbers are integers or strings here, matching
  the claims, which are about the exact-arithmetic layer.
* DynamoDB responses are lists of records; a store-level exception is
  modelled as `none` at the call that can raise it.
* Python strings are modelled at ASCII fidelity (`str.lower`,
  `str.title`); all concrete inputs in the development are ASCII.
-/

namespace Fleet

/-- JSON value, the shallow embedding of the Python dict/list/str/int
values flowing through the tools. -/
inductive JVal where
  | null : JVal
  | bool : Bool → JVal
  | int : Int → JVal
  | str : String → JVal
  | arr : List JVal → JVal
  | obj : List (String × JVal) → JVal
deriving Repr, Inhabited

mutual

/-- Boolean equality on JSON values (Python `==` on the embedded
dict/list/str/int values). -/
def JVal.beq : JVal → JVal → Bool
  | .null, .null => true
  | .bool a, .bool b => a == b
  | .int a, .int b => a == b
  | .str a, .str b => a == b
  | .arr a, .arr b => JVal.beqArr a b
  | .obj a, .obj b => JVal.beqObj a b
  | _, _ => false

/-- Elementwise `JVal.beq` on arrays. -/
def JVal.beqArr : List JVal → List JVal → Bool
  | [], [] => true
  | a :: as_, b :: bs => JVal.beq a b && JVal.beqArr as_ bs
  | _, _ => false

/-- Pairwise `JVal.beq` on object entry lists. -/
def JVal.beqObj : List (String × JVal) → List (String × JVal) → Bool
  | [], [] => true
  | (ka, va) :: as_, (kb, vb) :: bs => ka == kb && JVal.beq va vb && JVal.beqObj as_ bs
  | _, _ => false

end

instance : BEq JVal := ⟨JVal.beq⟩

/-- Lowercase hex digit, as Python's `json` module emits in escapes. -/
def hexDigit (n : Nat) : Char :=
  if n < 10 then Char.ofNat (48 + n) else Char.ofNat (87 + n % 16)

/-- Four-digit lowercase hex, for `\uXXXX` escapes. -/
def hex4 (n : Nat) : String :=
  String.mk [hexDigit (n / 4096 % 16), hexDigit (n / 256 % 16),
             hexDigit (n / 16 % 16), hexDigit (n % 16)]

/-- Escape one character the way `json.dumps` (`ensure_ascii=True`)
does. -/
def escapeChar (c : Char) : String :=
  if c = '"' then String.mk ['\\', '"']
  else if c = '\\' then String.mk ['\\', '\\']
  else if c = '\n' then String.mk ['\\', 'n']
  else if c = '\t' then String.mk ['\\', 't']
  else if c = '\r' then String.mk ['\\', 'r']
  else if c.toNat < 32 then String.mk ['\\', 'u'] ++ hex4 c.toNat
  else if c.toNat < 127 then String.mk [c]
  else if c.toNat < 65536 then String.mk ['\\', 'u'] ++ hex4 c.toNat
  else
    let v := c.toNat - 65536
    String.mk ['\\', 'u'] ++ hex4 (55296 + v / 1024) ++
      String.mk ['\\', 'u'] ++ hex4 (56320 + v % 1024)

/-- JSON string literal rendering (`json.dumps` of a `str`). -/
def renderStr (s : String) : String :=
  String.mk ['"'] ++ String.join (s.data.map escapeChar) ++ String.mk ['"']

mutual

/-- `json.dumps` with its default separators `", "` and `": "`. -/
def JVal.render : JVal → String
  | .null => "null"
  | .bool true => "true"
  | .bool false => "false"
  | .int n => toString n
  | .str s => renderStr s
  | .arr l => "[" ++ JVal.renderArr l ++ "]"
  | .obj l => "\x7b" ++ JVal.renderObj l ++ "\x7d"

/-- Comma-joined rendering of a JSON array's elements. -/
def JVal.renderArr : List JVal → String
  | [] => ""
  | [v] => JVal.render v
  | v :: rest => JVal.render v ++ ", " ++ JVal.renderArr rest

/-- Comma-joined rendering of a JSON object's key/value pairs. -/
def JVal.renderObj : List (String × JVal) → String
  | [] => ""
  | [(k, v)] => renderStr k ++ ": " ++ JVal.render v
  | (k, v) :: rest => renderStr k ++ ": " ++ JVal.render v ++ ", " ++ JVal.renderObj rest

end

/-- Vehicle record, §3 of the data model (`load_fleet_data.py` seeds
these; `fleet_tools.py` reads them).  `daily_rate` is a `Decimal`,
embedded as `ℚ`. -/
structure Vehicle where
  vehicle_id : String
  make : String
  model : String
  year : Int
  category : String
  status : String
  location : String
  zip_code : String
  daily_rate : ℚ
  mileage : Int
deriving Repr, DecidableEq

/-- `_search_by_zip` (`fleet_tools.py` lines 25–44): DynamoDB GSI query
on `zip_code`, optional sort-key condition on `status`.  Python's
`if status:` makes `None` and `""` both mean "no status condition".
The store-failure branch (`except` → `[]`) is modelled separately in
`rawQueryByZip`; here the table is the successfully scanned data. -/
def queryByZip (table : List Vehicle) (zip : String) (status : Option String) : List Vehicle :=
  match status with
  | some s =>
      if s = "" then table.filter (fun v => v.zip_code == zip)
      else table.filter (fun v => v.zip_code == zip && v.status == s)
  | none => table.filter (fun v => v.zip_code == zip)

/-- `len(df[df["status"] == s])`: count of records whose status equals
`s` exactly. -/
def countStatus (vs : List Vehicle) (s : String) : Nat :=
  (vs.filter (fun v => v.status == s)).length

/-- Count of records whose category equals `c` exactly. -/
def countCategory (vs : List Vehicle) (c : String) : Nat :=
  (vs.filter (fun v => v.category == c)).length

/-- `df["category"].value_counts().to_dict()`: a count per distinct
category value (pandas orders by frequency; the claims do not touch
the order, so first-occurrence order is used). -/
def valueCounts (vs : List Vehicle) : List (String × Nat) :=
  ((vs.map Vehicle.category).dedup).map (fun c => (c, countCategory vs c))

/-- Round-half-to-even to an integer, the rounding `Decimal` applies
under its default context (Python's `round(Decimal, 2)` quantizes with
`ROUND_HALF_EVEN`). -/
def halfEvenRound (x : ℚ) : ℤ :=
  if x - ⌊x⌋ < 1 / 2 then ⌊x⌋
  else if 1 / 2 < x - ⌊x⌋ then ⌊x⌋ + 1
  else if ⌊x⌋ % 2 = 0 then ⌊x⌋ else ⌊x⌋ + 1

/-- `round(x, 2)` on a `Decimal`: half-even rounding to the cent
grid. -/
def roundHalfEven2 (x : ℚ) : ℚ :=
  ((halfEvenRound (100 * x) : ℤ) : ℚ) / 100

/-- The dictionary `_get_summary` builds (`fleet_tools.py` lines
47–62). -/
structure Summary where
  zip_code : String
  location : String
  total_vehicles : Nat
  available : Nat
  rented : Nat
  maintenance : Nat
  categories : List (String × Nat)
  avg_daily_rate : ℚ
deriving Repr, DecidableEq

/-- `_get_summary` (`fleet_tools.py` lines 47–62).  The Python function
returns either an `{"error": ...}` dict or the summary dict; the two
shapes are the two sides of `Except`.  `df["daily_rate"].mean()` on a
column of `Decimal` objects is the exact sum divided by the count. -/
def getSummary (table : List Vehicle) (zip : String) : Except String Summary :=
  match queryByZip table zip none with
  | [] => .error ("No vehicles found for " ++ zip)
  | v :: rest =>
      .ok
        { zip_code := zip
          location := v.location
          total_vehicles := (v :: rest).length
          available := countStatus (v :: rest) ("available")
          rented := countStatus (v :: rest) ("rented")
          maintenance := countStatus (v :: rest) ("maintenance")
          categories := valueCounts (v :: rest)
          avg_daily_rate :=
            roundHalfEven2 (((v :: rest).map Vehicle.daily_rate).sum / (((v :: rest).length : ℕ) : ℚ)) }

/-- Python `str.title()` at ASCII fidelity: the first letter of every
alphabetic run is uppercased, the rest lowercased; non-letters pass
through and reset the run. -/
def pyTitleChars : List Char → Bool → List Char
  | [], _ => []
  | c :: rest, prevAlpha =>
      if c.isAlpha then
        (if prevAlpha then c.toLower else c.toUpper) :: pyTitleChars rest true
      else c :: pyTitleChars rest false

/-- Python `str.title()`. -/
def pyTitle (s : String) : String :=
  String.mk (pyTitleChars s.data false)

/-- Python `str.lower()` at ASCII fidelity. -/
def pyLower (s : String) : String :=
  String.mk (s.data.map Char.toLower)

/-- Case-sensitive substring containment, the semantics of DynamoDB's
`contains` on strings (`needle` occurs contiguously in `hay`). -/
def hasInfix : List Char → List Char → Bool
  | [], needle => needle.isEmpty
  | c :: rest, needle => needle.isPrefixOf (c :: rest) || hasInfix rest needle

/-- Python's `if make:` guard around adding a filter: `None` and `""`
both mean "no filter imposed". -/
def optFilter (o : Option String) (f : String → Bool) : Bool :=
  match o with
  | none => true
  | some m => if m = "" then true else f m

/-- The conjunction of the filter expressions `_search_vehicles`
(`fleet_tools.py` lines 65–93) builds: `contains(make, input.title())`,
`contains(model, input.title())`, `category == input.lower()`,
`status == input` — combined with `&`. -/
def vehicleMatches (make mdl category status : Option String) (v : Vehicle) : Bool :=
  optFilter make (fun m => hasInfix v.make.data (pyTitle m).data)
  && optFilter mdl (fun m => hasInfix v.model.data (pyTitle m).data)
  && optFilter category (fun c => v.category == pyLower c)
  && optFilter status (fun s => v.status == s)

/-- `_search_vehicles` (`fleet_tools.py` lines 65–93):
`scan(FilterExpression=..., Limit=100)`.  DynamoDB's `Limit` bounds the
records *scanned* before the filter is applied, hence `take 100` then
`filter`; with no filters the scan returns the first 100 records. -/
def scanVehicles (table : List Vehicle) (make mdl category status : Option String) : List Vehicle :=
  (table.take 100).filter (vehicleMatches make mdl category status)

/-- One step of the grouping loop in `search_vehicles_general`
(`fleet_tools.py` lines 127–182): append `v` to its location's list,
creating the key at the end on first sight (Python dict insertion
order). -/
def addToGroups (acc : List (String × List Vehicle)) (v : Vehicle) : List (String × List Vehicle) :=
  match acc with
  | [] => [(v.location, [v])]
  | (k, g) :: rest =>
      if k = v.location then (k, g ++ [v]) :: rest
      else (k, g) :: addToGroups rest v

/-- The `locations` dict built by `search_vehicles_general`'s `for`
loop. -/
def groupByLocation (vs : List Vehicle) : List (String × List Vehicle) :=
  vs.foldl addToGroups []

/-- The non-empty payload of `search_vehicles_general`. -/
structure GeneralOk where
  count : Nat
  locations_found : Nat
  vehicles : List Vehicle
  by_location : List (String × List Vehicle)
deriving Repr, DecidableEq

/-- The two response shapes of `search_vehicles_general`
(`json.dumps` at the boundary is rendering, not modelled here). -/
inductive GeneralResult where
  | noMatch : String → GeneralResult
  | ok : GeneralOk → GeneralResult
deriving Repr, DecidableEq

/-- The payload of a `GeneralResult`, defaulting when no match
(used only to state closed instances of theorems). -/
def GeneralResult.getOk : GeneralResult → GeneralOk
  | .ok r => r
  | .noMatch _ => { count := 0, locations_found := 0, vehicles := [], by_location := [] }

/-- The `search_terms` list `search_vehicles_general` assembles for its
no-match message. -/
def searchTerms (make mdl category status : Option String) : List String :=
  (match make with
   | some m => if m = "" then [] else ["make: " ++ m]
   | none => [])
  ++ (match mdl with
      | some m => if m = "" then [] else ["model: " ++ m]
      | none => [])
  ++ (match category with
      | some c => if c = "" then [] else ["category: " ++ c]
      | none => [])
  ++ (match status with
      | some s => if s = "" then [] else ["status: " ++ s]
      | none => [])

/-- `search_vehicles_general` (`fleet_tools.py` lines 127–182). -/
def searchGeneral (table : List Vehicle) (make mdl category status : Option String) : GeneralResult :=
  match scanVehicles table make mdl category status with
  | [] =>
      .noMatch ("No vehicles found matching " ++
        String.intercalate (", ") (searchTerms make mdl category status))
  | v :: rest =>
      .ok
        { count := (v :: rest).length
          locations_found := (groupByLocation (v :: rest)).length
          vehicles := v :: rest
          by_location := groupByLocation (v :: rest) }

/-! ### Raw-record level

`search_fleet_by_zip` (`fleet_tools.py` lines 96–123) manipulates the
records exactly as DynamoDB returns them: Python dicts.  A dict is an
association list; `v["location"]` is a lookup that raises `KeyError`
when the key is absent — `Except` carries that exception. -/

/-- A DynamoDB item as returned to Python: a dict. -/
abbrev RawRecord := List (String × JVal)

/-- `d.get(k)`-style total lookup. -/
def rawLookup (r : RawRecord) (k : String) : Option JVal :=
  (r.find? (fun p => p.1 == k)).map (fun p => p.2)

/-- `d[k]`: raises `KeyError` when absent. -/
def dictGet (r : RawRecord) (k : String) : Except String JVal :=
  match rawLookup r k with
  | some v => .ok v
  | none => .error ("KeyError: " ++ k)

/-- `_search_by_zip` at the raw level, with the store-failure branch:
`none` is the store call raising, which the `except` swallows into
`[]`; `some t` is the indexed data, matched by the GSI key
conditions. -/
def rawQueryByZip (store : Option (List RawRecord)) (zip : String) (status : Option String) :
    List RawRecord :=
  match store with
  | none => []
  | some t =>
      let base := t.filter (fun r => rawLookup r ("zip_code") == some (.str zip))
      match status with
      | some s => if s = "" then base else base.filter (fun r => rawLookup r ("status") == some (.str s))
      | none => base

/-- `search_fleet_by_zip` (`fleet_tools.py` lines 96–123).  The Python
function returns a JSON string; `.error` is an exception escaping it —
the function body has no try/except of its own, so `KeyError` from
`vehicles[0]["location"]` propagates to the caller. -/
def search_fleet_by_zip (store : Option (List RawRecord)) (zip : String) (status : Option String) :
    Except String String :=
  match rawQueryByZip store zip status with
  | [] =>
      .ok (JVal.render (.obj
        [("message", .str ("No vehicles found for " ++ zip)), ("vehicles", .arr [])]))
  | v :: rest =>
      match dictGet v ("location") with
      | .error e => .error e
      | .ok loc =>
          .ok (JVal.render (.obj
            [("zip_code", .str zip), ("location", loc),
             ("count", .int (v :: rest).length),
             ("vehicles", .arr ((v :: rest).map JVal.obj))]))

/-! ### Lambda handlers (`weather_lambda.py`, `flight_lambda.py`) -/

/-- `context.client_context.custom`: the gateway's metadata dict.
`client_context = None` makes attribute access raise
`AttributeError`. -/
structure LambdaContext where
  client_context : Option (List (String × String))

/-- A context whose `custom` dict carries the given
`bedrockAgentCoreToolName`. -/
def mkCtx (toolId : String) : LambdaContext :=
  { client_context := some [("bedrockAgentCoreToolName", toolId)] }

/-- Python `ext.split("___")` specialised to the fixed three-underscore
separator: left-to-right, non-overlapping cuts. -/
def split3 : List Char → List (List Char)
  | '_' :: '_' :: '_' :: rest => [] :: split3 rest
  | c :: rest =>
      match split3 rest with
      | [] => [[c]]
      | g :: gs => (c :: g) :: gs
  | [] => [[]]

/-- Python `"___" in ext`. -/
def contains3 : List Char → Bool
  | '_' :: '_' :: '_' :: _ => true
  | _ :: rest => contains3 rest
  | [] => false

/-- `get_tool_name` (`weather_lambda.py` lines 12–22; duplicated
verbatim in `flight_lambda.py` lines 13–23): read
`bedrockAgentCoreToolName` from the context (any `AttributeError` /
absent key degrades to `""`), and when it contains `"___"` take
`split("___")[1]`. -/
def get_tool_name (ctx : LambdaContext) : String :=
  match ctx.client_context with
  | none => ""
  | some custom =>
      let ext := ((custom.find? (fun p => p.1 == "bedrockAgentCoreToolName")).map
        (fun p => p.2)).getD ("")
      if contains3 ext.data then String.mk ((split3 ext.data).getD 1 [])
      else ext

/-- `get_named_parameter`: `event.get(name)`. -/
def get_named_parameter (event : List (String × JVal)) (name : String) : Option JVal :=
  (event.find? (fun p => p.1 == name)).map (fun p => p.2)

/-- Python truthiness of an optional JSON value (`if not location:`). -/
def pyTruthy : Option JVal → Bool
  | none => false
  | some .null => false
  | some (.bool b) => b
  | some (.int n) => n != 0
  | some (.str s) => s != ""
  | some (.arr l) => !l.isEmpty
  | some (.obj l) => !l.isEmpty

/-- Decimal-digit accumulator for `int(str)`. -/
def chars2NatAux : List Char → Nat → Option Nat
  | [], acc => some acc
  | c :: rest, acc =>
      if c.isDigit then chars2NatAux rest (acc * 10 + (c.toNat - 48))
      else none

/-- Base-10 integer parse of a character list (sign then digits), the
accepted inputs of Python `int(str)`. -/
def parseInt : List Char → Option Int
  | [] => none
  | '-' :: rest =>
      if rest.isEmpty then none
      else (chars2NatAux rest 0).map (fun n => -(n : ℤ))
  | l =>
      if l.isEmpty then none
      else (chars2NatAux l 0).map (fun n => (n : ℤ))

/-- Python `int(x)` on a JSON value: succeeds on ints/bools and on
strings spelling an integer; raises `ValueError`/`TypeError`
otherwise. -/
def pyInt : JVal → Except String Int
  | .int n => .ok n
  | .bool b => .ok (if b then 1 else 0)
  | .str s =>
      match parseInt s.data with
      | some n => .ok n
      | none => .error ("invalid literal for int() with base 10: " ++ s)
  | _ => .error ("int() argument must be a string or a number")

/-- Python `str(x)` of a JSON value, as a free-text argument would be
coerced (only the `str` case is exercised by the claims). -/
def pyStr : JVal → String
  | .str s => s
  | .int n => toString n
  | .bool true => "True"
  | .bool false => "False"
  | .null => "None"
  | v => JVal.render v

/-- The fixed response envelope `{statusCode, body}` with `body` a
JSON-encoded string. -/
structure Response where
  statusCode : Int
  body : String
deriving Repr, DecidableEq

/-- The body of `weather_lambda.lambda_handler`'s `try` block
(lines 97–142).  `wf` abstracts `get_weather_forecast`, which catches
all its own exceptions and always returns a dict.  `.error` is an
exception reaching the handler's outer `except`. -/
def weather_handler_core (wf : String → Int → JVal) (event : List (String × JVal))
    (ctx : LambdaContext) : Except String Response :=
  if get_tool_name ctx = "get_weather_forecast" then
    if !pyTruthy (get_named_parameter event ("location")) then
      .ok { statusCode := 400
            body := JVal.render (.obj [("error", .str ("location parameter is required"))]) }
    else
      match get_named_parameter event ("days") with
      | none =>
          .ok { statusCode := 200
                body := JVal.render
                  (wf (pyStr ((get_named_parameter event ("location")).getD .null)) 7) }
      | some dv =>
          match pyInt dv with
          | .ok d =>
              .ok { statusCode := 200
                    body := JVal.render
                      (wf (pyStr ((get_named_parameter event ("location")).getD .null)) d) }
          | .error e => .error e
  else
    .ok { statusCode := 400
          body := JVal.render (.obj [("error", .str ("Unknown tool: " ++ get_tool_name ctx))]) }

/-- `weather_lambda.lambda_handler`: the outer `except Exception`
converts any escaped exception into a 500 envelope. -/
def weather_lambda_handler (wf : String → Int → JVal) (event : List (String × JVal))
    (ctx : LambdaContext) : Response :=
  match weather_handler_core wf event ctx with
  | .ok r => r
  | .error e =>
      { statusCode := 500
        body := JVal.render (.obj [("error", .str ("Internal error: " ++ e))]) }

/-- The body of `flight_lambda.lambda_handler`'s `try` block
(lines 108–148).  `ff` abstracts `get_flight_traffic`, which catches
all its own exceptions and always returns a dict. -/
def flight_handler_core (ff : String → JVal) (event : List (String × JVal))
    (ctx : LambdaContext) : Except String Response :=
  if get_tool_name ctx = "get_flight_traffic" then
    if !pyTruthy (get_named_parameter event ("airport_code")) then
      .ok { statusCode := 400
            body := JVal.render (.obj [("error", .str ("airport_code parameter is required"))]) }
    else
      .ok { statusCode := 200
            body := JVal.render (ff (pyStr ((get_named_parameter event ("airport_code")).getD .null))) }
  else
    .ok { statusCode := 400
          body := JVal.render (.obj [("error", .str ("Unknown tool: " ++ get_tool_name ctx))]) }

/-- `flight_lambda.lambda_handler` with its outer `except Exception`. -/
def flight_lambda_handler (ff : String → JVal) (event : List (String × JVal))
    (ctx : LambdaContext) : Response :=
  match flight_handler_core ff event ctx with
  | .ok r => r
  | .error e =>
      { statusCode := 500
        body := JVal.render (.obj [("error", .str ("Internal error: " ++ e))]) }

/-! ### Local-events date window (`get_local_events`,
`fleet_tools.py` lines 262–382) -/

/-- The start/end dates `get_local_events` queries the events API with,
as days (the time-of-day suffixes the code formats do not affect which
day is queried).  Faithful to the code: a missing `start_date` defaults
to `datetime.now()`, and a missing `end_date` defaults to
`datetime.now() + pd.Timedelta(days=30)` — 30 days from *now*, not
from the start date. -/
def eventDateWindow (now : ℤ) (start_d end_d : Option ℤ) : ℤ × ℤ :=
  (start_d.getD now, end_d.getD (now + 30))

/-! ### Concrete fixture data, used by the closed witness theorems -/

/-- Fixture vehicle: available sedan in 90001. -/
def vSedan : Vehicle :=
  { vehicle_id := "HZ-0001", make := "Toyota", model := "Camry", year := 2023
    category := "sedan", status := "available", location := "Los Angeles, CA"
    zip_code := "90001", daily_rate := 45.50, mileage := 12000 }

/-- Fixture vehicle: rented suv in 90001. -/
def vSuv : Vehicle :=
  { vehicle_id := "HZ-0002", make := "Honda", model := "CR-V", year := 2024
    category := "suv", status := "rented", location := "Los Angeles, CA"
    zip_code := "90001", daily_rate := 61.25, mileage := 8000 }

/-- Fixture vehicle: maintenance sedan in 10001. -/
def vNyc : Vehicle :=
  { vehicle_id := "HZ-0003", make := "Ford", model := "Mustang", year := 2022
    category := "sports", status := "maintenance", location := "New York, NY"
    zip_code := "10001", daily_rate := 89.00, mileage := 20000 }

/-- Fixture table. -/
def sampleTable : List Vehicle := [vSedan, vSuv, vNyc]

/-- Placeholder summary, for the total projection used in closed
witness statements. -/
def emptySummary : Summary :=
  { zip_code := "", location := "", total_vehicles := 0, available := 0
    rented := 0, maintenance := 0, categories := [], avg_daily_rate := 0 }

/-- Project the payload out of a summary response (closed witness
plumbing). -/
def summaryOf : Except String Summary → Summary
  | .ok s => s
  | .error _ => emptySummary

/-! ### C1: status counts partition the summary total -/

/-- The three exact-status counts partition a vehicle list whose
statuses all lie in the enumeration. -/
theorem countStatus_partition (vs : List Vehicle)
    (h : ∀ v ∈ vs, v.status = "available" ∨ v.status = "rented" ∨ v.status = "maintenance") :
    countStatus vs ("available") + countStatus vs ("rented") + countStatus vs ("maintenance")
      = vs.length := by
  induction vs with
  | nil => rfl
  | cons v rest ih =>
      have hv := h v (List.mem_cons_self _ _)
      have hrest : ∀ u ∈ rest,
          u.status = "available" ∨ u.status = "rented" ∨ u.status = "maintenance" :=
        fun u hu => h u (List.mem_cons_of_mem _ hu)
      have ihr := ih hrest
      simp only [countStatus, List.filter_cons, List.length_cons] at *
      rcases hv with h1 | h1 | h1 <;> rw [h1] <;> simp <;> omega

/-- C1: for every non-empty result set for a zip code in which every
record's status is one of `available`, `rented`, `maintenance`, the
summary returned by `getSummary` satisfies
`available + rented + maintenance = total_vehicles`, each addend being
the count of records with exactly that status. -/
theorem C1_summary_counts_partition_total (table : List Vehicle) (zip : String) (s : Summary)
    (h : getSummary table zip = .ok s)
    (hst : ∀ v ∈ queryByZip table zip none,
      v.status = "available" ∨ v.status = "rented" ∨ v.status = "maintenance") :
    s.available + s.rented + s.maintenance = s.total_vehicles := by
  unfold getSummary at h
  cases hq : queryByZip table zip none with
  | nil => rw [hq] at h; cases h
  | cons v rest =>
      rw [hq] at h
      rw [hq] at hst
      injection h with h
      subst h
      exact countStatus_partition (v :: rest) hst

/-- Closed instance of C1 on the fixture table. -/
theorem C1_summary_counts_partition_total_witness :
    (summaryOf (getSummary sampleTable ("90001"))).available
      + (summaryOf (getSummary sampleTable ("90001"))).rented
      + (summaryOf (getSummary sampleTable ("90001"))).maintenance
      = (summaryOf (getSummary sampleTable ("90001"))).total_vehicles := by
  have h : getSummary sampleTable ("90001")
      = .ok (summaryOf (getSummary sampleTable ("90001"))) := by rfl
  exact C1_summary_counts_partition_total sampleTable ("90001") _ h (by decide)

/-! ### C2: `avg_daily_rate` is the exact mean, half-even-rounded to
the cent grid -/

/-- Half-even rounding moves a rational by at most `1/2`. -/
theorem halfEvenRound_near (x : ℚ) : |(halfEvenRound x : ℚ) - x| ≤ 1 / 2 := by
  unfold halfEvenRound
  have h1 : ((⌊x⌋ : ℤ) : ℚ) ≤ x := Int.floor_le x
  have h2 : x < (⌊x⌋ : ℚ) + 1 := Int.lt_floor_add_one x
  split_ifs with ha hb hc <;> rw [abs_le] <;> push_cast <;> constructor <;> linarith

/-- Rounding to 2 decimals moves a rational by at most half a cent. -/
theorem roundHalfEven2_near (x : ℚ) : |roundHalfEven2 x - x| ≤ 1 / 200 := by
  have h := halfEvenRound_near (100 * x)
  rw [abs_le] at *
  unfold roundHalfEven2
  have hx : ((halfEvenRound (100 * x) : ℤ) : ℚ) / 100 - x
      = (((halfEvenRound (100 * x) : ℤ) : ℚ) - 100 * x) / 100 := by ring
  constructor <;> rw [hx] <;> linarith [h.1, h.2]

/-- The rounded value lands on the cent grid. -/
theorem roundHalfEven2_grid (x : ℚ) :
    roundHalfEven2 x * 100 = ((halfEvenRound (100 * x) : ℤ) : ℚ) := by
  unfold roundHalfEven2
  field_simp

/-- C2: whenever `getSummary` returns a summary, its `avg_daily_rate`
is the exact rational mean of the matched vehicles' `daily_rate`
(sum over count, no binary floating point), rounded half-even to 2
decimal places; hence it lies on the cent grid within half a cent of
the exact mean.  (`decimal_default` converts to binary float only
inside `json.dumps`, outside this computation.) -/
theorem C2_avg_daily_rate_exact_mean (table : List Vehicle) (zip : String) (s : Summary)
    (h : getSummary table zip = .ok s) :
    s.avg_daily_rate
        = roundHalfEven2 (((queryByZip table zip none).map Vehicle.daily_rate).sum
            / (((queryByZip table zip none).length : ℕ) : ℚ))
      ∧ (∃ k : ℤ, s.avg_daily_rate * 100 = (k : ℚ))
      ∧ |s.avg_daily_rate
          - ((queryByZip table zip none).map Vehicle.daily_rate).sum
            / (((queryByZip table zip none).length : ℕ) : ℚ)| ≤ 1 / 200 := by
  unfold getSummary at h
  cases hq : queryByZip table zip none with
  | nil => rw [hq] at h; cases h
  | cons v rest =>
      rw [hq] at h
      injection h with h
      subst h
      refine ⟨rfl, ⟨halfEvenRound (100 * (((v :: rest).map Vehicle.daily_rate).sum
        / (((v :: rest).length : ℕ) : ℚ))), roundHalfEven2_grid _⟩, roundHalfEven2_near _⟩

/-- Closed instance of C2 on the fixture table (the fixture mean
`53.375` is a tie, half-even-rounded to `53.38`). -/
theorem C2_avg_daily_rate_exact_mean_witness :
    (summaryOf (getSummary sampleTable ("90001"))).avg_daily_rate
        = roundHalfEven2 (((queryByZip sampleTable ("90001") none).map Vehicle.daily_rate).sum
            / (((queryByZip sampleTable ("90001") none).length : ℕ) : ℚ))
      ∧ (∃ k : ℤ, (summaryOf (getSummary sampleTable ("90001"))).avg_daily_rate * 100 = (k : ℚ))
      ∧ |(summaryOf (getSummary sampleTable ("90001"))).avg_daily_rate
          - ((queryByZip sampleTable ("90001") none).map Vehicle.daily_rate).sum
            / (((queryByZip sampleTable ("90001") none).length : ℕ) : ℚ)| ≤ 1 / 200 := by
  have h : getSummary sampleTable ("90001")
      = .ok (summaryOf (getSummary sampleTable ("90001"))) := by rfl
  exact C2_avg_daily_rate_exact_mean sampleTable ("90001") _ h

/-! ### C9: the default end date is computed from `now`, not from the
provided start date -/

/-- C9: evaluating the date-window defaulting of `get_local_events` at
a provided start date with no end date: with `now = 0` and
`start_date = 40`, the queried window is `(40, 30)` — the end is
`now + 30`, not `start_date + 30` as the function's own docstring and
comment state. -/
theorem C9_event_window_end_ignores_start :
    eventDateWindow 0 (some 40) none = (40, 30)
      ∧ (eventDateWindow 0 (some 40) none).2 ≠ 40 + 30 := by decide

/-! ### C3: scan filter semantics -/

/-- Unfolding of a guarded filter into its logical reading. -/
theorem optFilter_eq_true (o : Option String) (f : String → Bool) :
    optFilter o f = true ↔ ∀ m, o = some m → m ≠ "" → f m = true := by
  cases o with
  | none => simp [optFilter]
  | some m =>
      by_cases hm : m = ""
      · subst hm; simp [optFilter]
      · simp [optFilter, hm]

/-- C3 as stated is false: the status filter compares the raw input
case-sensitively (`Attr('status').eq(status)`), so two casings of the
same status value select different records.  The fixture record has
status `"available"`; filtering with `"Available"` misses it. -/
theorem C3_counterexample_status_not_case_insensitive :
    scanVehicles sampleTable none none none (some ("Available"))
      ≠ scanVehicles sampleTable none none none (some ("available")) := by decide

/-- C3 amended: `scanWithFilters` selects exactly the records among
the first 100 scanned where every provided (non-empty) filter holds,
with `make`/`model` matched by case-sensitive substring containment of
the title-cased input, `category` by case-sensitive equality with the
lowercased input, and `status` by case-sensitive equality with the raw
input; consequently the `category` filter is insensitive to the casing
of its input (two inputs with the same lowercasing are equivalent),
while the `status` filter is not. -/
theorem C3_amended_scan_filter_semantics :
    (∀ (table : List Vehicle) (make mdl category status : Option String) (v : Vehicle),
      v ∈ scanVehicles table make mdl category status ↔
        (v ∈ table.take 100
          ∧ (∀ m, make = some m → m ≠ "" → hasInfix v.make.data (pyTitle m).data = true)
          ∧ (∀ m, mdl = some m → m ≠ "" → hasInfix v.model.data (pyTitle m).data = true)
          ∧ (∀ c, category = some c → c ≠ "" → v.category = pyLower c)
          ∧ (∀ s, status = some s → s ≠ "" → v.status = s)))
    ∧ (∀ (table : List Vehicle) (make mdl status : Option String) (c1 c2 : String),
        c1 ≠ "" → c2 ≠ "" → pyLower c1 = pyLower c2 →
        scanVehicles table make mdl (some c1) status
          = scanVehicles table make mdl (some c2) status) := by
  constructor
  · intro table make mdl category status v
    rw [scanVehicles, List.mem_filter]
    simp only [vehicleMatches, Bool.and_eq_true, optFilter_eq_true, beq_iff_eq]
    tauto
  · intro table make mdl status c1 c2 h1 h2 hlow
    unfold scanVehicles
    congr 1
    funext v
    simp only [vehicleMatches, optFilter, if_neg h1, if_neg h2, hlow]

/-- Closed instance of the amended C3: filtering the fixture table by
category `"SUV"` is the same as filtering by `"suv"`. -/
theorem C3_amended_scan_filter_semantics_witness :
    scanVehicles sampleTable none none (some ("SUV")) none
      = scanVehicles sampleTable none none (some ("suv")) none :=
  C3_amended_scan_filter_semantics.2 sampleTable none none none ("SUV") ("suv")
    (by decide) (by decide) (by decide)

/-! ### C4: `by_location` partitions the general-search result -/

/-- One grouping step flattens to the old flattening plus the new
vehicle, as a multiset. -/
theorem addToGroups_flatten (acc : List (String × List Vehicle)) (v : Vehicle) :
    List.Perm (((addToGroups acc v).map Prod.snd).flatten)
      ((acc.map Prod.snd).flatten ++ [v]) := by
  induction acc with
  | nil => simp [addToGroups]
  | cons p rest ih =>
      obtain ⟨k, g⟩ := p
      by_cases hk : k = v.location
      · simp only [addToGroups, if_pos hk, List.map_cons, List.flatten_cons]
        rw [List.append_assoc, List.append_assoc]
        exact List.Perm.append_left g List.perm_append_comm
      · simp only [addToGroups, if_neg hk, List.map_cons, List.flatten_cons]
        have h1 := List.Perm.append_left g ih
        rw [List.append_assoc]
        exact h1

/-- The grouping fold flattens to the accumulator's flattening plus
the folded vehicles, as a multiset. -/
theorem foldl_addToGroups_flatten (vs : List Vehicle) :
    ∀ acc, List.Perm (((vs.foldl addToGroups acc).map Prod.snd).flatten)
      ((acc.map Prod.snd).flatten ++ vs) := by
  induction vs with
  | nil => intro acc; simp
  | cons v rest ih =>
      intro acc
      have h1 := ih (addToGroups acc v)
      have h2 := (addToGroups_flatten acc v).append_right rest
      have h3 := h1.trans h2
      have he : ((acc.map Prod.snd).flatten ++ [v]) ++ rest
          = (acc.map Prod.snd).flatten ++ (v :: rest) := by simp
      rw [List.foldl_cons]
      rw [he] at h3
      exact h3

/-- One grouping step preserves "every vehicle sits under its own
location key". -/
theorem addToGroups_keys (acc : List (String × List Vehicle)) (v : Vehicle) :
    (∀ k g, (k, g) ∈ acc → ∀ u ∈ g, u.location = k) →
    ∀ k g, (k, g) ∈ addToGroups acc v → ∀ u ∈ g, u.location = k := by
  induction acc with
  | nil =>
      intro _ k g hm u hu
      simp only [addToGroups, List.mem_singleton, Prod.mk.injEq] at hm
      obtain ⟨hk, hg⟩ := hm
      subst hk; subst hg
      simp only [List.mem_singleton] at hu
      subst hu; rfl
  | cons p rest ih =>
      obtain ⟨k0, g0⟩ := p
      intro hacc k g hm u hu
      by_cases hk : k0 = v.location
      · simp only [addToGroups, if_pos hk, List.mem_cons, Prod.mk.injEq] at hm
        rcases hm with ⟨hkk, hgg⟩ | hm
        · rw [hgg] at hu
          rw [hkk]
          rcases List.mem_append.mp hu with hu1 | hu1
          · exact hacc k0 g0 (List.mem_cons_self _ _) u hu1
          · simp only [List.mem_singleton] at hu1
            rw [hu1]
            exact hk.symm
        · exact hacc k g (List.mem_cons_of_mem _ hm) u hu
      · simp only [addToGroups, if_neg hk, List.mem_cons, Prod.mk.injEq] at hm
        rcases hm with ⟨hkk, hgg⟩ | hm
        · rw [hgg] at hu
          rw [hkk]
          exact hacc k0 g0 (by simp) u hu
        · exact ih (fun k1 g1 hm1 => hacc k1 g1 (List.mem_cons_of_mem _ hm1)) k g hm u hu

/-- The grouping fold preserves the key invariant. -/
theorem foldl_addToGroups_keys (vs : List Vehicle) :
    ∀ acc, (∀ k g, (k, g) ∈ acc → ∀ u ∈ g, u.location = k) →
      ∀ k g, (k, g) ∈ vs.foldl addToGroups acc → ∀ u ∈ g, u.location = k := by
  induction vs with
  | nil => intro acc hacc; exact hacc
  | cons v rest ih =>
      intro acc hacc
      exact ih (addToGroups acc v) (addToGroups_keys acc v hacc)

/-- C4: for every non-empty scan result, `by_location` partitions the
`vehicles` list by location — its flattened value lists form the same
multiset as `vehicles`, every vehicle in a group carries that group's
key as its location, and `locations_found` is the number of keys. -/
theorem C4_by_location_partitions (table : List Vehicle)
    (make mdl category status : Option String) (r : GeneralOk)
    (h : searchGeneral table make mdl category status = .ok r) :
    List.Perm ((r.by_location.map Prod.snd).flatten) r.vehicles
      ∧ (∀ k g, (k, g) ∈ r.by_location → ∀ u ∈ g, u.location = k)
      ∧ r.locations_found = r.by_location.length := by
  unfold searchGeneral at h
  cases hs : scanVehicles table make mdl category status with
  | nil => rw [hs] at h; cases h
  | cons v rest =>
      rw [hs] at h
      injection h with h
      subst h
      refine ⟨?_, ?_, rfl⟩
      · have hj := foldl_addToGroups_flatten (v :: rest) []
        simpa [groupByLocation] using hj
      · exact foldl_addToGroups_keys (v :: rest) [] (by simp)

/-- Closed instance of C4 on the fixture table (three vehicles, two
locations). -/
theorem C4_by_location_partitions_witness :
    List.Perm ((((searchGeneral sampleTable none none none none).getOk.by_location.map
        Prod.snd).flatten)) ((searchGeneral sampleTable none none none none).getOk.vehicles)
      ∧ (∀ k g, (k, g) ∈ (searchGeneral sampleTable none none none none).getOk.by_location →
          ∀ u ∈ g, u.location = k)
      ∧ (searchGeneral sampleTable none none none none).getOk.locations_found
          = (searchGeneral sampleTable none none none none).getOk.by_location.length := by
  have h : searchGeneral sampleTable none none none none
      = .ok ((searchGeneral sampleTable none none none none).getOk) := by rfl
  exact C4_by_location_partitions sampleTable none none none none _ h

/-! ### C5 / C10: tool-name recovery and handler dispatch -/

/-- `get_tool_name` on a context carrying the given identifier reduces
to the split-or-passthrough expression. -/
theorem get_tool_name_mkCtx (ext : String) :
    get_tool_name (mkCtx ext)
      = if contains3 ext.data then String.mk ((split3 ext.data).getD 1 []) else ext := rfl

/-- Splitting a string of shape `pre ++ "___" ++ post` with an
underscore-free prefix cuts exactly at that separator first. -/
theorem split3_append_sep (pre post : List Char) (hp : '_' ∉ pre) :
    split3 (pre ++ '_' :: '_' :: '_' :: post) = pre :: split3 post := by
  induction pre with
  | nil => rfl
  | cons c rest ih =>
      have hc : c ≠ '_' := fun h => hp (h ▸ List.mem_cons_self _ _)
      have hrest : '_' ∉ rest := fun h => hp (List.mem_cons_of_mem _ h)
      rw [List.cons_append, split3.eq_2 c _ (fun r h1 _ => hc h1), ih hrest]

/-- A string of shape `pre ++ "___" ++ post` with an underscore-free
prefix contains the separator. -/
theorem contains3_append_sep (pre post : List Char) (hp : '_' ∉ pre) :
    contains3 (pre ++ '_' :: '_' :: '_' :: post) = true := by
  induction pre with
  | nil => rfl
  | cons c rest ih =>
      have hc : c ≠ '_' := fun h => hp (h ▸ List.mem_cons_self _ _)
      have hrest : '_' ∉ rest := fun h => hp (List.mem_cons_of_mem _ h)
      rw [List.cons_append, contains3.eq_2 c _ (fun r h1 _ => hc h1), ih hrest]

/-- A string without the separator splits into itself alone. -/
theorem split3_eq_self (l : List Char) (h : contains3 l = false) : split3 l = [l] := by
  induction l with
  | nil => rfl
  | cons c rest ih =>
      by_cases hsep : ∃ r1, c = '_' ∧ rest = '_' :: '_' :: r1
      · obtain ⟨r1, hc, hr⟩ := hsep
        rw [hc, hr] at h
        rw [contains3.eq_1] at h
        cases h
      · have hside : ∀ r1, c = '_' → rest = '_' :: '_' :: r1 → False :=
          fun r1 hc hr => hsep ⟨r1, hc, hr⟩
        rw [contains3.eq_2 c rest hside] at h
        rw [split3.eq_2 c rest hside, ih h]

/-- The identifier `pre ++ "___" ++ post` (underscore-free target
name, separator-free tool name) recovers exactly `post`. -/
theorem get_tool_name_of_sep (pre post : List Char) (hp : '_' ∉ pre)
    (hpost : contains3 post = false) :
    get_tool_name (mkCtx (String.mk (pre ++ '_' :: '_' :: '_' :: post))) = String.mk post := by
  rw [get_tool_name_mkCtx]
  have hd : (String.mk (pre ++ '_' :: '_' :: '_' :: post)).data
      = pre ++ '_' :: '_' :: '_' :: post := rfl
  rw [hd, contains3_append_sep pre post hp, split3_append_sep pre post hp,
    split3_eq_self post hpost]
  rfl

/-- C5: the handler recovers the bare tool name as the piece after the
`"___"` separator; the identifier
`"WeatherTarget___get_weather_forecast"` dispatches to the weather
tool (a 200 envelope around the forecast result), and an identifier
recovering an unknown name, e.g. `"X___bogus"`, yields a 400 envelope
whose body is the JSON of `{"error": "Unknown tool: bogus"}`. -/
theorem C5_separator_dispatch :
    (∀ (pre post : List Char), '_' ∉ pre → contains3 post = false →
      get_tool_name (mkCtx (String.mk (pre ++ '_' :: '_' :: '_' :: post))) = String.mk post)
    ∧ (∀ wf : String → Int → JVal,
        weather_lambda_handler wf [("location", .str ("Seattle"))]
            (mkCtx ("WeatherTarget___get_weather_forecast"))
          = { statusCode := 200, body := JVal.render (wf ("Seattle") 7) })
    ∧ (∀ (wf : String → Int → JVal) (event : List (String × JVal)),
        weather_lambda_handler wf event (mkCtx ("X___bogus"))
          = { statusCode := 400,
              body := JVal.render (.obj [("error", .str ("Unknown tool: bogus"))]) }) := by
  refine ⟨get_tool_name_of_sep, fun wf => rfl, fun wf event => rfl⟩

/-- Closed instance of C5: the weather identifier recovers the bare
tool name, and the unknown identifier produces the 400 envelope. -/
theorem C5_separator_dispatch_witness :
    get_tool_name (mkCtx (String.mk
        ("WeatherTarget".data ++ '_' :: '_' :: '_' :: "get_weather_forecast".data)))
        = String.mk ("get_weather_forecast".data)
      ∧ weather_lambda_handler (fun _ _ => JVal.null) [] (mkCtx ("X___bogus"))
          = { statusCode := 400,
              body := JVal.render (.obj [("error", .str ("Unknown tool: bogus"))]) } :=
  ⟨C5_separator_dispatch.1 ("WeatherTarget".data) ("get_weather_forecast".data)
      (by decide) (by decide),
    C5_separator_dispatch.2.2 (fun _ _ => JVal.null) []⟩

/-- C10: an identifier without the `"___"` separator is used whole as
the tool name; a context with no tool-identifier field (or no client
context at all) recovers `""`, and both handlers then return the 400
envelope whose body is the JSON of `{"error": "Unknown tool: "}`. -/
theorem C10_tool_name_fallbacks :
    (∀ ext : String, contains3 ext.data = false → get_tool_name (mkCtx ext) = ext)
    ∧ get_tool_name { client_context := some [] } = ""
    ∧ get_tool_name { client_context := none } = ""
    ∧ (∀ (wf : String → Int → JVal) (event : List (String × JVal)),
        weather_lambda_handler wf event { client_context := some [] }
          = { statusCode := 400,
              body := JVal.render (.obj [("error", .str ("Unknown tool: "))]) })
    ∧ (∀ (ff : String → JVal) (event : List (String × JVal)),
        flight_lambda_handler ff event { client_context := some [] }
          = { statusCode := 400,
              body := JVal.render (.obj [("error", .str ("Unknown tool: "))]) }) := by
  refine ⟨?_, rfl, rfl, fun wf event => rfl, fun ff event => rfl⟩
  intro ext h
  rw [get_tool_name_mkCtx, h]
  rfl

/-- Closed instance of C10: a separator-free identifier passes through
unchanged. -/
theorem C10_tool_name_fallbacks_witness :
    get_tool_name (mkCtx ("get_weather_forecast")) = "get_weather_forecast" :=
  C10_tool_name_fallbacks.1 ("get_weather_forecast") (by decide)

/-! ### C6: handler error envelopes -/

/-- Every successful result of the weather handler body carries a
JSON-encoded-string body. -/
theorem weather_core_ok_render (wf : String → Int → JVal) (event : List (String × JVal))
    (ctx : LambdaContext) (r : Response) (h : weather_handler_core wf event ctx = .ok r) :
    ∃ j : JVal, r.body = JVal.render j := by
  unfold weather_handler_core at h
  split_ifs at h with h1 h2
  · injection h with h
    exact ⟨_, by rw [← h]⟩
  · split at h
    · injection h with h
      exact ⟨_, by rw [← h]⟩
    · split at h
      · injection h with h
        exact ⟨_, by rw [← h]⟩
      · cases h
  · injection h with h
    exact ⟨_, by rw [← h]⟩

/-- Every successful result of the flight handler body carries a
JSON-encoded-string body. -/
theorem flight_core_ok_render (ff : String → JVal) (event : List (String × JVal))
    (ctx : LambdaContext) (r : Response) (h : flight_handler_core ff event ctx = .ok r) :
    ∃ j : JVal, r.body = JVal.render j := by
  unfold flight_handler_core at h
  split_ifs at h with h1 h2 <;> injection h with h <;> exact ⟨_, by rw [← h]⟩

/-- C6: for both remote handlers — a missing required argument yields
the 400 envelope naming it; an exception escaping the `try` body
yields the 500 envelope embedding its message; and every response,
in every case, is a `{statusCode, body}` record whose body is the
JSON encoding of some value. -/
theorem C6_handler_envelopes (wf : String → Int → JVal) (ff : String → JVal)
    (event : List (String × JVal)) (ctx : LambdaContext) :
    (get_tool_name ctx = "get_weather_forecast" →
      pyTruthy (get_named_parameter event ("location")) = false →
      weather_lambda_handler wf event ctx
        = { statusCode := 400,
            body := JVal.render (.obj [("error", .str ("location parameter is required"))]) })
    ∧ (get_tool_name ctx = "get_flight_traffic" →
        pyTruthy (get_named_parameter event ("airport_code")) = false →
        flight_lambda_handler ff event ctx
          = { statusCode := 400,
              body := JVal.render (.obj [("error", .str ("airport_code parameter is required"))]) })
    ∧ (∀ e, weather_handler_core wf event ctx = .error e →
        weather_lambda_handler wf event ctx
          = { statusCode := 500,
              body := JVal.render (.obj [("error", .str ("Internal error: " ++ e))]) })
    ∧ (∀ e, flight_handler_core ff event ctx = .error e →
        flight_lambda_handler ff event ctx
          = { statusCode := 500,
              body := JVal.render (.obj [("error", .str ("Internal error: " ++ e))]) })
    ∧ (∃ j : JVal, (weather_lambda_handler wf event ctx).body = JVal.render j)
    ∧ (∃ j : JVal, (flight_lambda_handler ff event ctx).body = JVal.render j) := by
  refine ⟨?_, ?_, ?_, ?_, ?_, ?_⟩
  · intro ht hl
    simp [weather_lambda_handler, weather_handler_core, ht, hl]
  · intro ht hl
    simp [flight_lambda_handler, flight_handler_core, ht, hl]
  · intro e he
    unfold weather_lambda_handler
    rw [he]
  · intro e he
    unfold flight_lambda_handler
    rw [he]
  · cases hc : weather_handler_core wf event ctx with
    | ok r =>
        obtain ⟨j, hj⟩ := weather_core_ok_render wf event ctx r hc
        exact ⟨j, by unfold weather_lambda_handler; rw [hc]; exact hj⟩
    | error e =>
        exact ⟨.obj [("error", .str ("Internal error: " ++ e))],
          by unfold weather_lambda_handler; rw [hc]⟩
  · cases hc : flight_handler_core ff event ctx with
    | ok r =>
        obtain ⟨j, hj⟩ := flight_core_ok_render ff event ctx r hc
        exact ⟨j, by unfold flight_lambda_handler; rw [hc]; exact hj⟩
    | error e =>
        exact ⟨.obj [("error", .str ("Internal error: " ++ e))],
          by unfold flight_lambda_handler; rw [hc]⟩

/-- Closed instance of C6: a call with no `location` argument gets the
400 envelope; a call whose `days` argument fails `int()` gets the 500
envelope with the exception message. -/
theorem C6_handler_envelopes_witness :
    weather_lambda_handler (fun _ _ => JVal.null) []
        (mkCtx ("WeatherTarget___get_weather_forecast"))
        = { statusCode := 400,
            body := JVal.render (.obj [("error", .str ("location parameter is required"))]) }
      ∧ weather_lambda_handler (fun _ _ => JVal.null)
            [("location", .str ("LA")), ("days", .str ("x"))]
            (mkCtx ("WeatherTarget___get_weather_forecast"))
          = { statusCode := 500,
              body := JVal.render (.obj [("error",
                .str ("Internal error: invalid literal for int() with base 10: x"))]) } := by
  constructor
  · exact (C6_handler_envelopes (fun _ _ => JVal.null) (fun _ => JVal.null) []
      (mkCtx ("WeatherTarget___get_weather_forecast"))).1 (by rfl) (by rfl)
  · exact (C6_handler_envelopes (fun _ _ => JVal.null) (fun _ => JVal.null)
      [("location", .str ("LA")), ("days", .str ("x"))]
      (mkCtx ("WeatherTarget___get_weather_forecast"))).2.2.1 _ (by rfl)

/-! ### C7 / C8: tool-boundary behaviour of `search_fleet_by_zip` -/

/-- A store record missing the `location` field (the DynamoDB item is
just a dict; nothing guarantees the field). -/
def badRecord : RawRecord :=
  [("vehicle_id", .str ("HZ-0009")), ("zip_code", .str ("90001"))]

/-- A fully-populated store record. -/
def goodRecord : RawRecord :=
  [("vehicle_id", .str ("HZ-0001")), ("zip_code", .str ("90001")),
   ("status", .str ("available")), ("location", .str ("Los Angeles, CA"))]

/-- C7 as stated is false: `search_fleet_by_zip` has no outermost
try/except, so when the store returns a record without a `location`
field, `vehicles[0]["location"]` raises a `KeyError` that escapes the
tool boundary instead of becoming a structured JSON result. -/
theorem C7_counterexample_keyerror_escapes :
    search_fleet_by_zip (some [badRecord]) ("90001") none
      = .error ("KeyError: location") := by rfl

/-- C7 amended: store-query failures and empty matches are degraded to
structured JSON results, and whenever every matched record carries a
`location` field the tool returns a structured JSON result; but (per
the counterexample) a matched record without that field raises an
uncaught `KeyError` past the tool boundary — the claimed catch-all
outermost boundary does not exist for the fleet tools. -/
theorem C7_amended_tool_boundary (store : Option (List RawRecord)) (zip : String)
    (status : Option String)
    (hloc : ∀ r ∈ rawQueryByZip store zip status, (rawLookup r ("location")).isSome = true) :
    ∃ s, search_fleet_by_zip store zip status = .ok s := by
  cases hq : rawQueryByZip store zip status with
  | nil => exact ⟨_, by unfold search_fleet_by_zip; rw [hq]⟩
  | cons v rest =>
      have hv := hloc v (by rw [hq]; exact List.mem_cons_self _ _)
      cases hl : rawLookup v ("location") with
      | none => rw [hl] at hv; cases hv
      | some j =>
          exact ⟨JVal.render (.obj
            [("zip_code", .str zip), ("location", j),
             ("count", .int (v :: rest).length),
             ("vehicles", .arr ((v :: rest).map JVal.obj))]), by
              simp only [search_fleet_by_zip, hq, dictGet, hl]⟩

/-- Closed instance of the amended C7 on a fully-populated record. -/
theorem C7_amended_tool_boundary_witness :
    ∃ s, search_fleet_by_zip (some [goodRecord]) ("90001") none = .ok s :=
  C7_amended_tool_boundary (some [goodRecord]) ("90001") none (by
    intro r hr
    rw [show rawQueryByZip (some [goodRecord]) ("90001") none = [goodRecord] from rfl] at hr
    simp only [List.mem_singleton] at hr
    rw [hr]
    rfl)

/-- C8: whenever the zip query matches zero records — in particular
whenever the underlying store query fails and is degraded to the empty
sequence — `search_fleet_by_zip` returns the structured
`{message, vehicles: []}` JSON result (never an escaped exception). -/
theorem C8_empty_match_message_shape (store : Option (List RawRecord)) (zip : String)
    (status : Option String) :
    (rawQueryByZip store zip status = [] →
      search_fleet_by_zip store zip status
        = .ok (JVal.render (.obj [("message", .str ("No vehicles found for " ++ zip)),
            ("vehicles", .arr [])])))
    ∧ rawQueryByZip none zip status = [] := by
  constructor
  · intro h
    unfold search_fleet_by_zip
    rw [h]
  · rfl

/-- Closed instance of C8: a failing store yields the message shape. -/
theorem C8_empty_match_message_shape_witness :
    search_fleet_by_zip none ("90210") none
      = .ok (JVal.render (.obj [("message", .str ("No vehicles found for 90210")),
          ("vehicles", .arr [])])) :=
  (C8_empty_match_message_shape none ("90210") none).1 (by rfl)

end Fleet
